import Mathlib

/-!
Verification of the prediction-and-explanation core of the explainable
predictive-maintenance backend: the model registry (`model_manager.py`) and the
attribution engine (`explainability.py`).  Machine floats are modelled as exact
rationals; NaN and infinities, which only input validation inspects, are
modelled by an explicit sum type.
-/

set_option maxHeartbeats 1000000

namespace PredMaint

/-- A Python float value as it can appear in an input array: a finite value
(modelled exactly as a rational), NaN, or a signed infinity. -/
inductive PyFloat where
  | finite : ℚ → PyFloat
  | nan : PyFloat
  | posInf : PyFloat
  | negInf : PyFloat
deriving DecidableEq

/-- np.isnan(v) or np.isinf(v) for a single element. -/
def PyFloat.isNanOrInf : PyFloat → Bool
  | .finite _ => false
  | _ => true

/-- Model of a numpy ndarray: its shape together with its flattened contents. -/
structure NDArray where
  shape : List ℕ
  data : List PyFloat

/-- A one-dimensional input vector viewed as an ndarray. -/
def NDArray.ofVec (v : List PyFloat) : NDArray := ⟨[v.length], v⟩

/-- A two-dimensional batch of rows viewed as an ndarray of shape (k, 24);
meaningful when every row has 24 entries. -/
def NDArray.ofMatrix (rows : List (List PyFloat)) : NDArray :=
  ⟨[rows.length, 24], rows.flatten⟩

/-- ModelManager.validate_input_data (model_manager.py lines 246-254): raise if
the last axis of the input is not 24, then raise if any element is NaN or
infinite, else return True. -/
def validate_input_data (a : NDArray) : Except String Bool :=
  if a.shape.getLast? ≠ some 24 then
    .error "Expected 24 features"
  else if a.data.any PyFloat.isNanOrInf then
    .error "Input data contains NaN or infinite values"
  else
    .ok true

/-- Whether a validation call raised (the spec's SchemaError). -/
def isSchemaError : Except String Bool → Bool
  | .error _ => true
  | .ok _ => false

/-- A 24-feature input vector of finite values. -/
abbrev FeatureVec := Fin 24 → ℚ

/-- A fitted StandardScaler: per-feature center and scale statistics frozen at
fit time. -/
structure Scaler where
  mean : FeatureVec
  scale : FeatureVec

/-- StandardScaler.transform: per-feature centering and scaling. -/
def Scaler.transform (s : Scaler) (x : FeatureVec) : FeatureVec :=
  fun i => (x i - s.mean i) / s.scale i

/-- Modelled from the spec: the trained 3-class failure classifier is external
library code (LightGBM); per the spec it produces a probability distribution
over the three classes, modelled as positive per-class weights normalised to
sum to one, and its `predict` returns the arg-max class. -/
structure FailureClassifier where
  weight : FeatureVec → Fin 3 → ℚ
  weight_pos : ∀ x c, 0 < weight x c

/-- The classifier's probability for each class: normalised positive weights. -/
def FailureClassifier.predict_proba (m : FailureClassifier) (x : FeatureVec) : Fin 3 → ℚ :=
  fun c => m.weight x c / (∑ j : Fin 3, m.weight x j)

/-- First index attaining the maximum of a 3-vector (the np.argmax tie
convention: earliest maximal index wins). -/
def argmax3 (p : Fin 3 → ℚ) : Fin 3 :=
  if p 0 < p 1 then (if p 1 < p 2 then 2 else 1) else (if p 0 < p 2 then 2 else 0)

/-- Modelled from the spec: the classifier's `predict` returns the arg-max of
its probability distribution. -/
def FailureClassifier.predict (m : FailureClassifier) (x : FeatureVec) : Fin 3 :=
  argmax3 (m.predict_proba x)

/-- Modelled from the spec and the sklearn interface: the anomaly detector
(IsolationForest) assigns each input a decision score, negative exactly for
anomalies; `predict` returns -1 when the decision score is negative, else 1. -/
structure IsolationForestModel where
  score_samples : FeatureVec → ℚ
  offset : ℚ

/-- IsolationForest.decision_function: the raw score shifted by the fitted
offset. -/
def IsolationForestModel.decision_function (m : IsolationForestModel) (x : FeatureVec) : ℚ :=
  m.score_samples x - m.offset

/-- IsolationForest.predict: -1 (anomaly) exactly when the decision function is
negative, else 1 (normal). -/
def IsolationForestModel.predict (m : IsolationForestModel) (x : FeatureVec) : Int :=
  if m.decision_function x < 0 then -1 else 1

/-- The model registry built once at startup: one scoring model and one fitted
scaler per task (model_manager.py lines 17-118). -/
structure ModelManager where
  rul_model : FeatureVec → ℚ
  rul_scaler : Scaler
  failure_classifier : FailureClassifier
  failure_scaler : Scaler
  anomaly_detector : IsolationForestModel
  anomaly_scaler : Scaler

/-- The payload of a RUL prediction: the predicted value, the derived risk
band, and the heuristic confidence. -/
structure RULResult where
  value : ℚ
  risk_level : String
  confidence : ℚ

/-- ModelManager.predict_rul (lines 120-155): scale, run the regressor, band
the prediction into a risk level by fixed thresholds, and attach the clamped
confidence heuristic min(0.95, max(0.6, 1 - |value - 100| / 200)). -/
def predict_rul (mm : ModelManager) (x : FeatureVec) : RULResult :=
  let p := mm.rul_model (mm.rul_scaler.transform x)
  { value := p
    risk_level := if p < 30 then "High" else if p < 100 then "Medium" else "Low"
    confidence := min (95 / 100 : ℚ) (max (6 / 10 : ℚ) (1 - |p - 100| / 200)) }

/-- The spec's fixed risk thresholds, stated as the spec words them:
value < 30 gives High, 30 ≤ value < 100 gives Medium, value ≥ 100 gives Low. -/
def specRiskLevel (v : ℚ) : String :=
  if v < 30 then "High" else if 30 ≤ v ∧ v < 100 then "Medium" else "Low"

/-- The class list ['Low Risk', 'Medium Risk', 'High Risk'] indexed by class. -/
def classNames : Fin 3 → String
  | 0 => "Low Risk"
  | 1 => "Medium Risk"
  | 2 => "High Risk"

/-- The payload of a failure-risk prediction: predicted class name, the class
probability distribution, and the confidence. -/
structure FailureRiskResult where
  risk_class : String
  probabilities : Fin 3 → ℚ
  confidence : ℚ

/-- ModelManager.predict_failure_risk (lines 161-194): scale, query the
classifier for its predicted class and class probabilities, and report the
maximum probability as the confidence. -/
def predict_failure_risk (mm : ModelManager) (x : FeatureVec) : FailureRiskResult :=
  let scaled := mm.failure_scaler.transform x
  let probs := mm.failure_classifier.predict_proba scaled
  { risk_class := classNames (mm.failure_classifier.predict scaled)
    probabilities := probs
    confidence := max (max (probs 0) (probs 1)) (probs 2) }

/-- The payload of an anomaly check: the flag, the signed score, and the
confidence. -/
structure AnomalyResult where
  is_anomaly : Bool
  score : ℚ
  confidence : ℚ

/-- ModelManager.detect_anomaly (lines 200-231): scale, query the detector's
prediction and decision score, flag an anomaly when the prediction is -1, and
report the absolute score as the confidence. -/
def detect_anomaly (mm : ModelManager) (x : FeatureVec) : AnomalyResult :=
  let scaled := mm.anomaly_scaler.transform x
  let pred := mm.anomaly_detector.predict scaled
  let score := mm.anomaly_detector.decision_function scaled
  { is_anomaly := pred == -1
    score := score
    confidence := |score| }

/-- Claim C3: for every model state and every input vector, predict_rul derives
the risk level from the predicted value by the fixed thresholds: value < 30
gives High, 30 ≤ value < 100 gives Medium, value ≥ 100 gives Low. -/
theorem predict_rul_risk_level_thresholds (mm : ModelManager) (x : FeatureVec) :
    (predict_rul mm x).risk_level = specRiskLevel (predict_rul mm x).value := by
  simp only [predict_rul, specRiskLevel]
  split_ifs with h1 h2 h3 h4
  · rfl
  · rfl
  · exact absurd ⟨le_of_not_lt h1, h2⟩ h3
  · exact absurd h4.2 h2
  · rfl

/-- Claim C5: for every model state and every input vector, detect_anomaly
flags an anomaly exactly when the returned score is strictly negative, and
returns confidence equal to the absolute value of that score. -/
theorem detect_anomaly_sign_convention (mm : ModelManager) (x : FeatureVec) :
    (detect_anomaly mm x).is_anomaly = decide ((detect_anomaly mm x).score < 0) ∧
    (detect_anomaly mm x).confidence = |(detect_anomaly mm x).score| := by
  constructor
  · simp only [detect_anomaly, IsolationForestModel.predict]
    split_ifs with h
    · simp [h]
    · simp [h]
  · rfl

/-- Claim C6: validation fails for every vector whose length is not 24, and for
every 24-length vector containing a NaN or infinite element. -/
theorem validate_input_data_rejects (v : List PyFloat) :
    (v.length ≠ 24 → isSchemaError (validate_input_data (NDArray.ofVec v)) = true) ∧
    (v.length = 24 → v.any PyFloat.isNanOrInf = true →
      isSchemaError (validate_input_data (NDArray.ofVec v)) = true) := by
  constructor
  · intro h
    simp [validate_input_data, NDArray.ofVec, isSchemaError, h]
  · intro hlen hbad
    simp [validate_input_data, NDArray.ofVec, isSchemaError, hlen, hbad]

/-- A 24-length vector with NaN at index 5 and finite values elsewhere. -/
def nanAtIndex5Vec : List PyFloat :=
  (List.replicate 5 (PyFloat.finite 0)) ++ [PyFloat.nan] ++ List.replicate 18 (PyFloat.finite 0)

/-- Witness for C6: the empty vector (length 0) is rejected, and the 24-length
vector with NaN at index 5 is rejected. -/
theorem validate_input_data_rejects_witness :
    isSchemaError (validate_input_data (NDArray.ofVec ([] : List PyFloat))) = true ∧
    isSchemaError (validate_input_data (NDArray.ofVec nanAtIndex5Vec)) = true :=
  ⟨(validate_input_data_rejects []).1 (by decide),
   (validate_input_data_rejects nanAtIndex5Vec).2 (by decide) (by decide)⟩

/-- Claim C10: a two-dimensional batch whose rows each have 24 finite entries
passes validation: only the size of the last axis and the absence of NaN or
infinity anywhere in the array are checked. -/
theorem validate_input_data_accepts_batches (rows : List (List PyFloat))
    (_hlen : ∀ r ∈ rows, r.length = 24)
    (hfin : ∀ r ∈ rows, ∀ e ∈ r, e.isNanOrInf = false) :
    validate_input_data (NDArray.ofMatrix rows) = .ok true := by
  have hany : rows.flatten.any PyFloat.isNanOrInf = false := by
    rw [List.any_eq_false]
    intro e he
    rcases List.mem_flatten.mp he with ⟨r, hr, her⟩
    simp [hfin r hr e her]
  simp [validate_input_data, NDArray.ofMatrix, hany]

/-- A concrete two-row batch of finite values. -/
def finiteBatch : List (List PyFloat) :=
  [List.replicate 24 (PyFloat.finite 0), List.replicate 24 (PyFloat.finite 1)]

/-- Witness for C10: a concrete (2, 24) all-finite batch passes validation. -/
theorem validate_input_data_accepts_batches_witness :
    validate_input_data (NDArray.ofMatrix finiteBatch) = .ok true :=
  validate_input_data_accepts_batches finiteBatch (by decide) (by decide)

/-- The predicted class attains the maximum probability: argmax3 picks a
maximising index. -/
theorem argmax3_attains_max (p : Fin 3 → ℚ) :
    p (argmax3 p) = max (max (p 0) (p 1)) (p 2) := by
  unfold argmax3
  split_ifs with h1 h2 h3 <;>
    · simp only [max_def]
      split_ifs <;> linarith

/-- Claim C4: for every model state and every input vector (the all-zero vector
included), predict_failure_risk returns a distribution over the three classes
summing to one exactly (hence within 1e-6), a confidence equal to the maximum
probability, and a predicted class equal to the arg-max of the probabilities. -/
theorem predict_failure_risk_distribution (mm : ModelManager) (x : FeatureVec) :
    (∑ c : Fin 3, (predict_failure_risk mm x).probabilities c) = 1 ∧
    |(∑ c : Fin 3, (predict_failure_risk mm x).probabilities c) - 1| ≤ 1 / 1000000 ∧
    (predict_failure_risk mm x).confidence =
      max (max ((predict_failure_risk mm x).probabilities 0)
          ((predict_failure_risk mm x).probabilities 1))
        ((predict_failure_risk mm x).probabilities 2) ∧
    (∀ c : Fin 3, (predict_failure_risk mm x).probabilities c ≤
      (predict_failure_risk mm x).confidence) ∧
    (predict_failure_risk mm x).risk_class =
      classNames (argmax3 ((predict_failure_risk mm x).probabilities)) ∧
    (predict_failure_risk mm x).probabilities
        (argmax3 ((predict_failure_risk mm x).probabilities)) =
      (predict_failure_risk mm x).confidence := by
  set scaled := mm.failure_scaler.transform x with hscaled
  have hw : ∀ c, 0 < mm.failure_classifier.weight scaled c :=
    fun c => mm.failure_classifier.weight_pos scaled c
  have hsumpos : 0 < ∑ j : Fin 3, mm.failure_classifier.weight scaled j :=
    Finset.sum_pos (fun j _ => hw j) ⟨0, Finset.mem_univ 0⟩
  have hsum : (∑ c : Fin 3, (predict_failure_risk mm x).probabilities c) = 1 := by
    simp only [predict_failure_risk, FailureClassifier.predict_proba, ← hscaled]
    rw [← Finset.sum_div, div_self (ne_of_gt hsumpos)]
  refine ⟨hsum, ?_, rfl, ?_, rfl, ?_⟩
  · rw [hsum]
    norm_num
  · intro c
    show (predict_failure_risk mm x).probabilities c ≤ _
    fin_cases c
    · exact le_trans (le_max_left _ _) (le_max_left _ _)
    · exact le_trans (le_max_right _ _) (le_max_left _ _)
    · exact le_max_right _ _
  · exact argmax3_attains_max _

/-- A concrete classifier with constant positive class weights 1, 2, 3. -/
def demoClassifier : FailureClassifier where
  weight := fun _ c => (c : ℕ) + 1
  weight_pos := fun _ c => by positivity

/-- The identity scaler (zero center, unit scale). -/
def identityScaler : Scaler := ⟨fun _ => 0, fun _ => 1⟩

/-- A concrete model registry used to instantiate the general theorems. -/
def demoManager : ModelManager where
  rul_model := fun v => v 0
  rul_scaler := identityScaler
  failure_classifier := demoClassifier
  failure_scaler := identityScaler
  anomaly_detector := ⟨fun v => v 0, 0⟩
  anomaly_scaler := identityScaler

/-- The all-zero 24-feature vector. -/
def zeroVec : FeatureVec := fun _ => 0

/-- Witness for C4: on a concrete registry, the all-zero 24-feature vector
yields a failure-risk distribution summing to one. -/
theorem predict_failure_risk_distribution_witness :
    (∑ c : Fin 3, (predict_failure_risk demoManager zeroVec).probabilities c) = 1 :=
  (predict_failure_risk_distribution demoManager zeroVec).1

/-- ModelExplainer._get_feature_names: setting_1..setting_3 followed by
sensor_1..sensor_21, in this fixed order. -/
def feature_names : List String :=
  ((List.range 3).map fun i => "setting_" ++ toString (i + 1)) ++
    ((List.range 21).map fun i => "sensor_" ++ toString (i + 1))

/-- One entry of the SHAP feature-importance ranking as built in
get_shap_explanation (explainability.py lines 140-147). -/
structure ShapFeatureRecord where
  feature : String
  shap_value : ℚ
  abs_importance : ℚ
  impact : String
deriving DecidableEq

/-- Build one SHAP record from a feature name and its contribution. -/
def mkShapFeatureRecord (f : String) (v : ℚ) : ShapFeatureRecord :=
  ⟨f, v, |v|, if 0 < v then "positive" else "negative"⟩

/-- One entry of the LIME feature list as built in get_lime_explanation (lines
215-222); the feature field may carry a discretised range description such as
"sensor_3 > 0.52". -/
structure LimeFeatureRecord where
  feature : String
  importance : ℚ
  abs_importance : ℚ
  impact : String
deriving DecidableEq

/-- Build one LIME record from a feature description and its importance. -/
def mkLimeFeatureRecord (f : String) (v : ℚ) : LimeFeatureRecord :=
  ⟨f, v, |v|, if 0 < v then "positive" else "negative"⟩

/-- Stable insertion into a list already sorted by descending absolute
importance: the new element goes after every element of strictly larger key and
before ties, matching the stability of Python list.sort with reverse=True. -/
def insertDescShap (a : ShapFeatureRecord) : List ShapFeatureRecord → List ShapFeatureRecord
  | [] => [a]
  | b :: bs =>
    if a.abs_importance < b.abs_importance then b :: insertDescShap a bs else a :: b :: bs

/-- Stable sort of SHAP records by descending absolute importance. -/
def sortShapByAbsDesc (l : List ShapFeatureRecord) : List ShapFeatureRecord :=
  l.foldr insertDescShap []

/-- Stable insertion for LIME records, by descending absolute importance. -/
def insertDescLime (a : LimeFeatureRecord) : List LimeFeatureRecord → List LimeFeatureRecord
  | [] => [a]
  | b :: bs =>
    if a.abs_importance < b.abs_importance then b :: insertDescLime a bs else a :: b :: bs

/-- Stable sort of LIME records by descending absolute importance. -/
def sortLimeByAbsDesc (l : List LimeFeatureRecord) : List LimeFeatureRecord :=
  l.foldr insertDescLime []

/-- The ranked feature-importance list built by get_shap_explanation from the
per-feature contribution values: zip the feature names with the values, build
records, and stably sort by descending absolute value (lines 139-150). -/
def shapFeatureRanking (vals : List ℚ) : List ShapFeatureRecord :=
  sortShapByAbsDesc ((feature_names.zip vals).map fun p => mkShapFeatureRecord p.1 p.2)

/-- The set of names of the first five records of a ranked list. -/
def top5Names (l : List ShapFeatureRecord) : Finset String :=
  ((l.take 5).map ShapFeatureRecord.feature).toFinset

/-- Python's s.split(' ')[0]: the longest space-free leading segment of a LIME
feature description (line 310 strips discretisation ranges this way). -/
def firstWord (s : String) : String :=
  String.mk (s.toList.takeWhile fun c => c ≠ ' ')

/-- The set of base names of the first five records of a ranked LIME list. -/
def limeTop5Names (l : List LimeFeatureRecord) : Finset String :=
  ((l.take 5).map fun r => firstWord r.feature).toFinset

/-- ModelExplainer._find_consensus_features (lines 302-319): intersect the
top-5 feature-name sets of the three explanation runs. -/
def find_consensus_features (shapRul shapFailure : List ShapFeatureRecord)
    (lime : List LimeFeatureRecord) : Finset String :=
  top5Names shapRul ∩ top5Names shapFailure ∩ limeTop5Names lime

/-- The name carried by the top-ranked record of a SHAP ranking, if any. -/
def top1Name (l : List ShapFeatureRecord) : Option String :=
  l.head?.map ShapFeatureRecord.feature

/-- The base name carried by the top-ranked record of a LIME list, if any. -/
def limeTop1Name (l : List LimeFeatureRecord) : Option String :=
  l.head?.map fun r => firstWord r.feature

/-- Claim C2: the consensus set over the three explanation runs is the
intersection of their top-5-by-magnitude name sets; consequently it is a subset
of each method's top-5 set, it equals the common set when all three top-5 sets
coincide, and it is empty when the three top-1 features are pairwise distinct
and no other overlap exists among the three sets.  An empty intersection is an
ordinary value of the total function, not an error. -/
theorem consensus_intersection_properties (rulVals failVals : List ℚ)
    (lime : List LimeFeatureRecord) :
    find_consensus_features (shapFeatureRanking rulVals) (shapFeatureRanking failVals) lime =
      top5Names (shapFeatureRanking rulVals) ∩ top5Names (shapFeatureRanking failVals) ∩
        limeTop5Names lime ∧
    find_consensus_features (shapFeatureRanking rulVals) (shapFeatureRanking failVals) lime ⊆
      top5Names (shapFeatureRanking rulVals) ∧
    find_consensus_features (shapFeatureRanking rulVals) (shapFeatureRanking failVals) lime ⊆
      top5Names (shapFeatureRanking failVals) ∧
    find_consensus_features (shapFeatureRanking rulVals) (shapFeatureRanking failVals) lime ⊆
      limeTop5Names lime ∧
    (top5Names (shapFeatureRanking rulVals) = top5Names (shapFeatureRanking failVals) →
      top5Names (shapFeatureRanking failVals) = limeTop5Names lime →
      find_consensus_features (shapFeatureRanking rulVals) (shapFeatureRanking failVals) lime =
        top5Names (shapFeatureRanking rulVals)) ∧
    (∀ t1 t2 t3 : String,
      top1Name (shapFeatureRanking rulVals) = some t1 →
      top1Name (shapFeatureRanking failVals) = some t2 →
      limeTop1Name lime = some t3 →
      t1 ≠ t2 → t1 ≠ t3 → t2 ≠ t3 →
      t1 ∉ top5Names (shapFeatureRanking failVals) →
      t2 ∉ top5Names (shapFeatureRanking rulVals) →
      t3 ∉ top5Names (shapFeatureRanking rulVals) →
      (∀ a, a ∈ top5Names (shapFeatureRanking rulVals) →
        a ∈ top5Names (shapFeatureRanking failVals) →
        a ∈ limeTop5Names lime → a ∈ ({t1, t2, t3} : Finset String)) →
      find_consensus_features (shapFeatureRanking rulVals) (shapFeatureRanking failVals) lime =
        ∅) := by
  refine ⟨rfl, ?_, ?_, ?_, ?_, ?_⟩
  · exact fun a ha => (Finset.mem_inter.mp (Finset.mem_inter.mp ha).1).1
  · exact fun a ha => (Finset.mem_inter.mp (Finset.mem_inter.mp ha).1).2
  · exact fun a ha => (Finset.mem_inter.mp ha).2
  · intro h12 h23
    rw [find_consensus_features, h12, Finset.inter_self, h23, Finset.inter_self, ← h23, ← h12]
  · intro t1 t2 t3 _ _ _ h12 h13 h23 hn1 hn2 hn3 hcover
    rw [Finset.eq_empty_iff_forall_not_mem]
    intro a ha
    have h1 := (Finset.mem_inter.mp (Finset.mem_inter.mp ha).1).1
    have h2 := (Finset.mem_inter.mp (Finset.mem_inter.mp ha).1).2
    have h3 := (Finset.mem_inter.mp ha).2
    have := hcover a h1 h2 h3
    simp only [Finset.mem_insert, Finset.mem_singleton] at this
    rcases this with rfl | rfl | rfl
    · exact hn1 h2
    · exact hn2 h1
    · exact hn3 h1

/-- Identical value lists for the all-methods-agree case of the C2 witness. -/
def consensusValsEq : List ℚ := [1]

/-- A LIME list whose single feature description shares the base name
setting_1 with the SHAP rankings. -/
def consensusLimeEq : List LimeFeatureRecord :=
  [mkLimeFeatureRecord "setting_1 > 0" 1]

/-- Values putting the five largest magnitudes on the first five features. -/
def consensusValsA : List ℚ := [10, 9, 8, 7, 6, 1, 1, 1, 1, 1]

/-- Values putting the five largest magnitudes on the next five features. -/
def consensusValsB : List ℚ := [1, 1, 1, 1, 1, 10, 9, 8, 7, 6]

/-- A LIME list whose base name overlaps neither SHAP top-5 set. -/
def consensusLimeC : List LimeFeatureRecord :=
  [mkLimeFeatureRecord "sensor_20 <= 1" 2]

/-- Witness for C2: on concrete inputs, three identical top-5 sets yield that
very set as consensus, and three overlap-free rankings yield the empty
consensus. -/
theorem consensus_intersection_witness :
    find_consensus_features (shapFeatureRanking consensusValsEq)
        (shapFeatureRanking consensusValsEq) consensusLimeEq =
      top5Names (shapFeatureRanking consensusValsEq) ∧
    find_consensus_features (shapFeatureRanking consensusValsA)
        (shapFeatureRanking consensusValsB) consensusLimeC = ∅ := by
  constructor
  · exact (consensus_intersection_properties consensusValsEq consensusValsEq
      consensusLimeEq).2.2.2.2.1 rfl (by decide)
  · exact (consensus_intersection_properties consensusValsA consensusValsB
      consensusLimeC).2.2.2.2.2 "setting_1" "sensor_3" "sensor_20"
      (by decide) (by decide) (by decide) (by decide) (by decide) (by decide)
      (by decide) (by decide) (by decide) (by decide)

/-- The outcome of one SHAP explanation call: either the ranked
feature-importance payload, or the structured error payload built in
explainability.py lines 161-167, carrying the error message and the
explanation type. -/
inductive ShapOutcome where
  | ok : List ShapFeatureRecord → ShapOutcome
  | err : String → String → ShapOutcome
deriving DecidableEq

/-- The outcome of one LIME explanation call: payload, or the structured error
of lines 235-241 carrying the error message and the explanation type. -/
inductive LimeOutcome where
  | ok : List LimeFeatureRecord → LimeOutcome
  | err : String → String → LimeOutcome
deriving DecidableEq

/-- Whether a SHAP call returned the error payload. -/
def ShapOutcome.isErr : ShapOutcome → Bool
  | .err _ _ => true
  | .ok _ => false

/-- Whether a LIME call returned the error payload. -/
def LimeOutcome.isErr : LimeOutcome → Bool
  | .err _ _ => true
  | .ok _ => false

/-- shap_rul.get('feature_importance', []): the payload records of a SHAP
outcome, empty for an error payload, which carries no such key. -/
def ShapOutcome.features : ShapOutcome → List ShapFeatureRecord
  | .ok l => l
  | .err _ _ => []

/-- The payload records of a LIME outcome, empty for an error payload. -/
def LimeOutcome.features : LimeOutcome → List LimeFeatureRecord
  | .ok l => l
  | .err _ _ => []

/-- The two additive-explanation targets. -/
inductive ShapTarget where
  | rul : ShapTarget
  | failure : ShapTarget
deriving DecidableEq

/-- The model_type string for a target. -/
def ShapTarget.name : ShapTarget → String
  | .rul => "rul"
  | .failure => "failure"

/-- The explainer registry held by ModelExplainer after initialisation: one
additive explainer per scoring model and one surrogate explainer, each present
only if its initialisation succeeded (lines 20-25 and 41-93).  An explainer is
modelled by the per-feature values it produces for an instance. -/
structure ModelExplainerState where
  shap_rul : Option (FeatureVec → List ℚ)
  shap_failure : Option (FeatureVec → List ℚ)
  lime_tabular : Option (FeatureVec → List (String × ℚ))

/-- ModelExplainer.get_shap_explanation (lines 95-167): if the explainer for
the requested target never initialised, return the structured error payload
naming the SHAP explanation type; otherwise rank the contributions and
truncate the ranking to max_display entries. -/
def get_shap_explanation (st : ModelExplainerState) (t : ShapTarget) (x : FeatureVec)
    (max_display : ℕ) : ShapOutcome :=
  match (match t with | .rul => st.shap_rul | .failure => st.shap_failure) with
  | none => .err ("SHAP explainer not available for " ++ t.name) "SHAP"
  | some e => .ok ((shapFeatureRanking (e x)).take max_display)

/-- ModelExplainer.get_lime_explanation without its generator threading (lines
169-241): if the surrogate explainer never initialised, return the structured
error payload naming the LIME explanation type; otherwise build and rank the
records, truncated to num_features entries. -/
def get_lime_explanation (st : ModelExplainerState) (x : FeatureVec)
    (num_features : ℕ) : LimeOutcome :=
  match st.lime_tabular with
  | none => .err "LIME explainer not available" "LIME"
  | some e =>
    .ok ((sortLimeByAbsDesc ((e x).map fun p => mkLimeFeatureRecord p.1 p.2)).take num_features)

/-- _find_consensus_features applied to the three outcome payloads, a missing
payload contributing the empty record list. -/
def find_consensus_features_outcomes (a b : ShapOutcome) (c : LimeOutcome) : Finset String :=
  find_consensus_features a.features b.features c.features

/-- The combined payload assembled by get_feature_impact_analysis. -/
structure CombinedAnalysis where
  shap_rul : ShapOutcome
  shap_failure : ShapOutcome
  lime_local : LimeOutcome
  consensus_features : Finset String

/-- ModelExplainer.get_feature_impact_analysis (lines 243-270): attempt the
three constituent explanations independently and attach the consensus
intersection of their top-5 sets. -/
def get_feature_impact_analysis (st : ModelExplainerState) (x : FeatureVec) : CombinedAnalysis :=
  let r := get_shap_explanation st .rul x 10
  let f := get_shap_explanation st .failure x 10
  let l := get_lime_explanation st x 10
  ⟨r, f, l, find_consensus_features_outcomes r f l⟩

/-- Claim C8 (amended): in a combined request each constituent explanation is
attempted independently — each component of the result equals the outcome of
the corresponding standalone call, and an uninitialised explainer yields the
structured error payload naming its explanation type without affecting the
siblings.  However, the consensus intersection always ranges over all three
methods: a failed method contributes an empty top-5 set, so the consensus set
is empty whenever any method fails, and no restriction note is recorded. -/
theorem combined_analysis_independence_and_empty_consensus
    (st : ModelExplainerState) (x : FeatureVec) :
    (get_feature_impact_analysis st x).shap_rul = get_shap_explanation st .rul x 10 ∧
    (get_feature_impact_analysis st x).shap_failure = get_shap_explanation st .failure x 10 ∧
    (get_feature_impact_analysis st x).lime_local = get_lime_explanation st x 10 ∧
    (st.shap_rul = none →
      (get_feature_impact_analysis st x).shap_rul =
        .err "SHAP explainer not available for rul" "SHAP") ∧
    (st.lime_tabular = none →
      (get_feature_impact_analysis st x).lime_local =
        .err "LIME explainer not available" "LIME") ∧
    ((get_feature_impact_analysis st x).shap_rul.isErr = true →
      (get_feature_impact_analysis st x).consensus_features = ∅) ∧
    ((get_feature_impact_analysis st x).shap_failure.isErr = true →
      (get_feature_impact_analysis st x).consensus_features = ∅) ∧
    ((get_feature_impact_analysis st x).lime_local.isErr = true →
      (get_feature_impact_analysis st x).consensus_features = ∅) := by
  refine ⟨rfl, rfl, rfl, ?_, ?_, ?_, ?_, ?_⟩
  · intro h
    show get_shap_explanation st .rul x 10 = _
    simp only [get_shap_explanation, h, ShapTarget.name]
    rfl
  · intro h
    show get_lime_explanation st x 10 = _
    simp only [get_lime_explanation, h]
  · intro h
    cases hr : get_shap_explanation st ShapTarget.rul x 10 with
    | ok l =>
      rw [show (get_feature_impact_analysis st x).shap_rul =
        get_shap_explanation st ShapTarget.rul x 10 from rfl, hr] at h
      simp [ShapOutcome.isErr] at h
    | err m ty =>
      show find_consensus_features_outcomes
        (get_shap_explanation st ShapTarget.rul x 10) _ _ = ∅
      rw [hr]
      simp [find_consensus_features_outcomes, find_consensus_features,
        ShapOutcome.features, top5Names]
  · intro h
    cases hr : get_shap_explanation st ShapTarget.failure x 10 with
    | ok l =>
      rw [show (get_feature_impact_analysis st x).shap_failure =
        get_shap_explanation st ShapTarget.failure x 10 from rfl, hr] at h
      simp [ShapOutcome.isErr] at h
    | err m ty =>
      show find_consensus_features_outcomes _
        (get_shap_explanation st ShapTarget.failure x 10) _ = ∅
      rw [hr]
      simp [find_consensus_features_outcomes, find_consensus_features,
        ShapOutcome.features, top5Names]
  · intro h
    cases hr : get_lime_explanation st x 10 with
    | ok l =>
      rw [show (get_feature_impact_analysis st x).lime_local =
        get_lime_explanation st x 10 from rfl, hr] at h
      simp [LimeOutcome.isErr] at h
    | err m ty =>
      show find_consensus_features_outcomes _ _ (get_lime_explanation st x 10) = ∅
      rw [hr]
      simp [find_consensus_features_outcomes, find_consensus_features,
        LimeOutcome.features, limeTop5Names]

/-- A registry state whose additive RUL explainer never initialised, while the
additive failure explainer and the surrogate explainer both work and agree on
the importance of setting_1. -/
def degradedState : ModelExplainerState where
  shap_rul := none
  shap_failure := some fun _ => [5, 4, 3, 2, 1]
  lime_tabular := some fun _ => [("setting_1 <= 2", 3)]

/-- Witness for the amended C8: on the concrete degraded state, the failed
method's payload names SHAP and the consensus set is empty. -/
theorem combined_analysis_witness :
    (get_feature_impact_analysis degradedState zeroVec).shap_rul =
      .err "SHAP explainer not available for rul" "SHAP" ∧
    (get_feature_impact_analysis degradedState zeroVec).consensus_features = ∅ := by
  constructor
  · exact (combined_analysis_independence_and_empty_consensus degradedState zeroVec).2.2.2.1 rfl
  · exact (combined_analysis_independence_and_empty_consensus degradedState
      zeroVec).2.2.2.2.2.1 (by decide)

/-- Counterexample to C8 as stated: on the concrete degraded state the two
methods that succeeded share the top feature setting_1, yet the recorded
consensus set is empty rather than the intersection over the succeeded
methods, and nothing in the result restricts the consensus to them. -/
theorem consensus_not_restricted_to_succeeded_methods :
    (get_feature_impact_analysis degradedState zeroVec).shap_rul.isErr = true ∧
    (get_feature_impact_analysis degradedState zeroVec).shap_failure.isErr = false ∧
    (get_feature_impact_analysis degradedState zeroVec).lime_local.isErr = false ∧
    top5Names (get_feature_impact_analysis degradedState zeroVec).shap_failure.features ∩
        limeTop5Names (get_feature_impact_analysis degradedState zeroVec).lime_local.features =
      {"setting_1"} ∧
    (get_feature_impact_analysis degradedState zeroVec).consensus_features = ∅ ∧
    (get_feature_impact_analysis degradedState zeroVec).consensus_features ≠
      top5Names (get_feature_impact_analysis degradedState zeroVec).shap_failure.features ∩
        limeTop5Names (get_feature_impact_analysis degradedState zeroVec).lime_local.features := by
  refine ⟨rfl, rfl, rfl, by decide, by decide, by decide⟩

/-- Modelled from the spec and the lime library interface: the surrogate
explainer was constructed without a fixed random_state (explainability.py lines
84-90), so its neighbourhood sampling draws from the process-global
pseudo-random generator, whose state advances with every draw.  The global
generator is modelled as a linear congruential generator state. -/
structure GlobalRng where
  seed : ℕ
deriving DecidableEq

/-- One step of the modelled global generator. -/
def rngStep (s : ℕ) : ℕ := (1103515245 * s + 12345) % 2147483648

/-- The perturbation magnitude derived from a generator state. -/
def rngOffset (s : ℕ) : ℚ := ((s % 7 : ℕ) : ℚ)

/-- Rational addition written through mkRat; kernel-evaluable and equal to the
ring addition (see ratAdd_eq). -/
def ratAdd (a b : ℚ) : ℚ := mkRat (a.num * b.den + b.num * a.den) (a.den * b.den)

/-- Rational subtraction written through mkRat; kernel-evaluable and equal to
the ring subtraction (see ratSub_eq). -/
def ratSub (a b : ℚ) : ℚ := mkRat (a.num * b.den - b.num * a.den) (a.den * b.den)

/-- ratAdd is ordinary rational addition. -/
theorem ratAdd_eq (a b : ℚ) : ratAdd a b = a + b := by
  rw [ratAdd, Rat.mkRat_eq_div]
  have ha : ((a.den : ℚ)) ≠ 0 := by exact_mod_cast a.den_nz
  have hb : ((b.den : ℚ)) ≠ 0 := by exact_mod_cast b.den_nz
  conv_rhs => rw [← Rat.num_div_den a, ← Rat.num_div_den b]
  push_cast
  field_simp
  try ring

/-- ratSub is ordinary rational subtraction. -/
theorem ratSub_eq (a b : ℚ) : ratSub a b = a - b := by
  rw [ratSub, Rat.mkRat_eq_div]
  have ha : ((a.den : ℚ)) ≠ 0 := by exact_mod_cast a.den_nz
  have hb : ((b.den : ℚ)) ≠ 0 := by exact_mod_cast b.den_nz
  conv_rhs => rw [← Rat.num_div_den a, ← Rat.num_div_den b]
  push_cast
  field_simp
  try ring

/-- Perturb a single feature of an instance by a drawn offset. -/
def perturbFeature (x : FeatureVec) (i : Fin 24) (d : ℚ) : FeatureVec :=
  fun j => if j = i then ratAdd (x j) d else x j

/-- Modelled from the spec: the surrogate neighbourhood pass draws one offset
per feature from the global generator, queries the wrapped prediction function
on each single-feature perturbation, and reports the induced output deviation
as that feature's raw local importance, threading the advancing generator
state through the loop. -/
def limeSampleLoop (pf : FeatureVec → ℚ) (x : FeatureVec) :
    List (Fin 24) → ℕ → List (String × ℚ) × ℕ
  | [], s => ([], s)
  | i :: rest, s =>
    let s1 := rngStep s
    let d := rngOffset s1
    let v := ratSub (pf (perturbFeature x i d)) (pf x)
    let tail := limeSampleLoop pf x rest s1
    ((feature_names.getD (i : ℕ) "" , v) :: tail.1, tail.2)

/-- explain_instance with the global generator passed explicitly: builds the
raw importances from the sampled neighbourhood, ranks them, and leaves the
generator in an advanced state. -/
def lime_explain_instance (pf : FeatureVec → ℚ) (x : FeatureVec) (rng : GlobalRng) :
    List LimeFeatureRecord × GlobalRng :=
  let raw := limeSampleLoop pf x (List.finRange 24) rng.seed
  (sortLimeByAbsDesc (raw.1.map fun p => mkLimeFeatureRecord p.1 p.2), ⟨raw.2⟩)

/-- A concrete wrapped prediction function: the scoring model reads the first
feature. -/
def demoPredictFn : FeatureVec → ℚ := fun v => v 0

/-- Claim C9, divergence exhibited on the modelled code: two consecutive
surrogate explanations of the identical all-zero vector return different
attribution lists, because the first call leaves the shared global generator in
a different state than it found it. -/
theorem lime_explanation_not_reproducible :
    (lime_explain_instance demoPredictFn zeroVec ⟨1⟩).1 ≠
      (lime_explain_instance demoPredictFn zeroVec
        ((lime_explain_instance demoPredictFn zeroVec ⟨1⟩).2)).1 ∧
    (lime_explain_instance demoPredictFn zeroVec ⟨1⟩).2 ≠ ⟨1⟩ := by
  constructor
  · decide
  · decide

/-- Modelled from the spec: the additive explainer (the external shap library)
computes, for a model, a fixed background sample, and an instance, the exact
additive per-feature contributions: the average over feature orderings of each
feature's marginal effect on the model output, a feature outside the active
coalition taking its background value. -/
def maskedInput {n : ℕ} (x b : Fin n → ℚ) (S : Finset (Fin n)) : Fin n → ℚ :=
  fun i => if i ∈ S then x i else b i

/-- The value of a coalition: the model output at the masked input, averaged
over the background sample. -/
def coalitionValue {n : ℕ} (f : (Fin n → ℚ) → ℚ) (B : List (Fin n → ℚ))
    (x : Fin n → ℚ) (S : Finset (Fin n)) : ℚ :=
  (B.map fun b => f (maskedInput x b S)).sum / B.length

/-- The features placed in the first k positions of an ordering. -/
def earlierSet {n : ℕ} (π : Equiv.Perm (Fin n)) (k : ℕ) : Finset (Fin n) :=
  Finset.univ.filter fun j => ((π.symm j : Fin n) : ℕ) < k

/-- The marginal effect of adding feature i at its position in the ordering π. -/
def permMarginal {n : ℕ} (f : (Fin n → ℚ) → ℚ) (B : List (Fin n → ℚ))
    (x : Fin n → ℚ) (π : Equiv.Perm (Fin n)) (i : Fin n) : ℚ :=
  coalitionValue f B x (earlierSet π (((π.symm i : Fin n) : ℕ) + 1)) -
    coalitionValue f B x (earlierSet π ((π.symm i : Fin n) : ℕ))

/-- The additive contribution of feature i: its marginal effect averaged over
all feature orderings. -/
def shapleyValue {n : ℕ} (f : (Fin n → ℚ) → ℚ) (B : List (Fin n → ℚ))
    (x : Fin n → ℚ) (i : Fin n) : ℚ :=
  (∑ π : Equiv.Perm (Fin n), permMarginal f B x π i) /
    (Fintype.card (Equiv.Perm (Fin n)) : ℚ)

/-- The reported base value: the model's average output over the background. -/
def baseValue {n : ℕ} (f : (Fin n → ℚ) → ℚ) (B : List (Fin n → ℚ)) : ℚ :=
  (B.map f).sum / B.length

/-- Masking with the full coalition returns the instance itself. -/
theorem maskedInput_univ {n : ℕ} (x b : Fin n → ℚ) :
    maskedInput x b Finset.univ = x := by
  funext i
  simp [maskedInput]

/-- Masking with the empty coalition returns the background row itself. -/
theorem maskedInput_empty {n : ℕ} (x b : Fin n → ℚ) :
    maskedInput x b (∅ : Finset (Fin n)) = b := by
  funext i
  simp [maskedInput]

/-- Every feature sits in one of the first n positions. -/
theorem earlierSet_top {n : ℕ} (π : Equiv.Perm (Fin n)) :
    earlierSet π n = Finset.univ := by
  ext j
  simp [earlierSet, Fin.is_lt]

/-- No feature sits before position zero. -/
theorem earlierSet_zero {n : ℕ} (π : Equiv.Perm (Fin n)) :
    earlierSet π 0 = ∅ := by
  ext j
  simp [earlierSet]

/-- The full coalition's value is the model's output at the instance. -/
theorem coalitionValue_univ {n : ℕ} (f : (Fin n → ℚ) → ℚ)
    (B : List (Fin n → ℚ)) (x : Fin n → ℚ) (hB : B ≠ []) :
    coalitionValue f B x Finset.univ = f x := by
  have hmap : (B.map fun b => f (maskedInput x b Finset.univ)) =
      List.replicate B.length (f x) := by
    rw [List.eq_replicate_iff]
    refine ⟨by simp, ?_⟩
    intro y hy
    rcases List.mem_map.mp hy with ⟨b, _, rfl⟩
    rw [maskedInput_univ]
  have hlen : (B.length : ℚ) ≠ 0 := by
    exact_mod_cast List.length_pos.mpr hB |>.ne'
  rw [coalitionValue, hmap, List.sum_replicate, nsmul_eq_mul]
  field_simp

/-- The empty coalition's value is the reported base value. -/
theorem coalitionValue_empty {n : ℕ} (f : (Fin n → ℚ) → ℚ)
    (B : List (Fin n → ℚ)) (x : Fin n → ℚ) :
    coalitionValue f B x ∅ = baseValue f B := by
  have hmap : ∀ b : Fin n → ℚ, f (maskedInput x b ∅) = f b := by
    intro b
    rw [maskedInput_empty]
  simp only [coalitionValue, baseValue, hmap]

/-- For one fixed ordering, the marginal effects over all features telescope to
the model output minus the base value. -/
theorem sum_permMarginal {n : ℕ} (f : (Fin n → ℚ) → ℚ) (B : List (Fin n → ℚ))
    (x : Fin n → ℚ) (π : Equiv.Perm (Fin n)) (hB : B ≠ []) :
    ∑ i : Fin n, permMarginal f B x π i = f x - baseValue f B := by
  have hcomp : ∑ i : Fin n, permMarginal f B x π i =
      ∑ k : Fin n, (coalitionValue f B x (earlierSet π ((k : ℕ) + 1)) -
        coalitionValue f B x (earlierSet π (k : ℕ))) :=
    Equiv.sum_comp π.symm fun k : Fin n =>
      coalitionValue f B x (earlierSet π ((k : ℕ) + 1)) -
        coalitionValue f B x (earlierSet π (k : ℕ))
  rw [hcomp,
    Fin.sum_univ_eq_sum_range (fun k => coalitionValue f B x (earlierSet π (k + 1)) -
      coalitionValue f B x (earlierSet π k)) n,
    Finset.sum_range_sub (fun k => coalitionValue f B x (earlierSet π k)) n,
    earlierSet_top, earlierSet_zero, coalitionValue_univ f B x hB,
    coalitionValue_empty]

/-- Local accuracy of the modelled additive explainer: over any nonempty
background, the per-feature contributions sum, together with the base value, to
the model's output at the instance. -/
theorem shapley_efficiency {n : ℕ} (f : (Fin n → ℚ) → ℚ) (B : List (Fin n → ℚ))
    (x : Fin n → ℚ) (hB : B ≠ []) :
    (∑ i : Fin n, shapleyValue f B x i) + baseValue f B = f x := by
  have hcard : (0 : ℚ) < (Fintype.card (Equiv.Perm (Fin n)) : ℚ) := by
    exact_mod_cast Fintype.card_pos
  have hsum : ∑ i : Fin n, shapleyValue f B x i = f x - baseValue f B := by
    simp only [shapleyValue]
    rw [← Finset.sum_div]
    rw [Finset.sum_comm]
    have : ∀ π ∈ (Finset.univ : Finset (Equiv.Perm (Fin n))),
        ∑ i : Fin n, permMarginal f B x π i = f x - baseValue f B :=
      fun π _ => sum_permMarginal f B x π hB
    rw [Finset.sum_congr rfl this, Finset.sum_const, Finset.card_univ, nsmul_eq_mul]
    field_simp
  rw [hsum]
  ring

/-- The class column selected by get_shap_explanation for multi-class output:
explainability.py line 137 takes values[:, 1]. -/
def designatedClassIndex : Fin 3 := 1

/-- The index of the highest-severity class, "High Risk", in the class list. -/
def highSeverityClassIndex : Fin 3 := 2

/-- The column-selection step the code applies to a multi-class contribution
matrix (explainability.py lines 135-137). -/
def selectClassColumn (vals : Fin 24 → Fin 3 → ℚ) : Fin 24 → ℚ :=
  fun i => vals i designatedClassIndex

/-- The failure model's contribution matrix: additive contributions computed
per class. -/
def failureShapValues (g : FeatureVec → Fin 3 → ℚ) (B : List FeatureVec)
    (x : FeatureVec) : Fin 24 → Fin 3 → ℚ :=
  fun i c => shapleyValue (fun v => g v c) B x i

/-- The contributions the code reports for the failure model: the designated
class column of the contribution matrix. -/
def reportedFailureContributions (g : FeatureVec → Fin 3 → ℚ) (B : List FeatureVec)
    (x : FeatureVec) : Fin 24 → ℚ :=
  selectClassColumn (failureShapValues g B x)

/-- Claim C1: for every model, every nonempty background, and every 24-feature
instance, the additive explainer's per-feature contributions summed with the
reported base value reconstruct the model's output at that instance exactly
(hence within any documented tolerance) — for the RUL regressor directly, and
for the failure classifier toward the class column whose contributions the
code reports. -/
theorem shap_additivity_reconstructs (rulModel : FeatureVec → ℚ)
    (clfProb : FeatureVec → Fin 3 → ℚ) (b0 : FeatureVec) (rest : List FeatureVec)
    (x : FeatureVec) :
    ((∑ i : Fin 24, shapleyValue rulModel (b0 :: rest) x i) +
        baseValue rulModel (b0 :: rest) = rulModel x) ∧
    ((∑ i : Fin 24, reportedFailureContributions clfProb (b0 :: rest) x i) +
        baseValue (fun v => clfProb v designatedClassIndex) (b0 :: rest) =
      clfProb x designatedClassIndex) :=
  ⟨shapley_efficiency rulModel (b0 :: rest) x (List.cons_ne_nil b0 rest),
   shapley_efficiency (fun v => clfProb v designatedClassIndex) (b0 :: rest) x
     (List.cons_ne_nil b0 rest)⟩

/-- A concrete multi-class contribution matrix whose middle-class column
differs from its high-severity column. -/
def mixedClassVals : Fin 24 → Fin 3 → ℚ :=
  fun _ c => if c = 2 then 5 else if c = 1 then 3 else 0

/-- Counterexample to C7 as stated: on a concrete multi-class contribution
matrix the code's column selection returns the middle-class (index 1) column,
which differs from the highest-severity ("High Risk", index 2) column. -/
theorem shap_class_selection_counterexample :
    selectClassColumn mixedClassVals ≠ (fun i => mixedClassVals i highSeverityClassIndex) ∧
    classNames highSeverityClassIndex = "High Risk" ∧
    selectClassColumn mixedClassVals 0 = 3 ∧
    mixedClassVals 0 highSeverityClassIndex = 5 := by
  refine ⟨?_, rfl, rfl, rfl⟩
  intro h
  have h0 := congrFun h 0
  rw [show selectClassColumn mixedClassVals 0 = 3 from rfl] at h0
  rw [show mixedClassVals 0 highSeverityClassIndex = 5 from rfl] at h0
  exact absurd h0 (by norm_num)

/-- Claim C7 (amended): for the multi-class failure model the additive
explainer reports contributions toward the class at fixed index 1 — "Medium
Risk", the middle class — not the highest-severity class; the reported column
still satisfies additivity toward that class. -/
theorem shap_designated_class_is_medium (clfProb : FeatureVec → Fin 3 → ℚ)
    (vals : Fin 24 → Fin 3 → ℚ) (b0 : FeatureVec) (rest : List FeatureVec)
    (x : FeatureVec) :
    classNames designatedClassIndex = "Medium Risk" ∧
    (∀ i : Fin 24, selectClassColumn vals i = vals i 1) ∧
    ((∑ i : Fin 24, reportedFailureContributions clfProb (b0 :: rest) x i) +
        baseValue (fun v => clfProb v 1) (b0 :: rest) = clfProb x 1) :=
  ⟨rfl, fun _ => rfl,
   shapley_efficiency (fun v => clfProb v 1) (b0 :: rest) x (List.cons_ne_nil b0 rest)⟩

end PredMaint
